import Mathlib

/-!
Shallow embedding of the orifice-plate quote pricing engine
(`pricing_engine.py`, `pricing_config.py`, `tuning_knobs.py`, and the
price-table resolution logic of `api_app.py`).

Python floats are modelled as exact rationals (all constants in the source
are short decimal literals); Python's `round` builtin is modelled as
round-half-to-even; Python dicts that the engine indexes are modelled as
association lists; exceptions are modelled with an explicit error type
(`ValueError` raised by `_require`, plus the raw `KeyError` / `IndexError` /
`AttributeError` faults that dict/list/module-attribute access can raise).
-/

set_option maxRecDepth 8000

namespace Orifice

/-- One quantity-discount tier, `{"min_qty": ..., "multiplier": ...}`. -/
structure Tier where
  min_qty : ℤ
  multiplier : ℚ
deriving DecidableEq, Repr

/-- The `QuoteInputs` pydantic model of `pricing_engine.py`. -/
structure QuoteInputs where
  quantity : ℤ
  material : String
  thickness : ℚ
  handle_width : ℚ
  handle_length_from_bore : ℚ
  paddle_dia : ℚ
  bore_dia : ℚ
  bore_tolerance : ℚ
  chamfer : Bool
  ships_in_days : ℤ
  handle_label : String := "No label"
  chamfer_width : Option ℚ := none
deriving DecidableEq, Repr

/-- Result dict of `_ups_rule_shipping_cents` (integer cents). -/
structure Shipping where
  ups_ground_cents : ℤ
  ups_2day_cents : ℤ
  ups_nextday_cents : ℤ
deriving DecidableEq, Repr

/-- The package-dimensions sub-dict of the quote result. -/
structure PackageIn where
  length : ℚ
  width : ℚ
  height : ℚ
deriving DecidableEq, Repr

/-- The result dict returned by `calculate_quote`. -/
structure Quote where
  area_sq_in : ℚ
  linear_inches : ℚ
  material_cost : ℚ
  laser_cost : ℚ
  machine_bore_cost : ℚ
  chamfer_bore_cost : ℚ
  load_cost : ℚ
  inspection_cost : ℚ
  subtotal_pre_multiplier : ℚ
  lead_time_multiplier : ℚ
  unit_price_pre_qty_discount : ℚ
  qty_discount_multiplier : ℚ
  unit_price : ℚ
  quantity : ℤ
  total_price : ℚ
  estimated_unit_weight_lb : ℚ
  estimated_total_weight_lb : ℚ
  estimated_package_in : PackageIn
  shipping : Shipping
  handle_label : String
  chamfer_width : Option ℚ
deriving DecidableEq, Repr

/-- Payload of the `ValueError`s raised by `_require` in `calculate_quote`;
each constructor is one of the five validation messages, carrying the
values interpolated into the message string. -/
inductive VErr where
  | qtyLow
  | unknownMaterial (m : String)
  | noPriceForThickness (t : ℚ) (m : String)
  | unsupportedBoreTol (t : ℚ)
  | unsupportedShipsInDays (d : ℤ)
deriving DecidableEq, Repr

/-- The Python exceptions that `calculate_quote` can raise: `ValueError`
from `_require`, and the raw faults from dict lookup (`KeyError`),
list indexing (`IndexError`) and a missing module attribute
(`AttributeError`). The code defines no other error kind. -/
inductive PyErr where
  | valueError (v : VErr)
  | keyError
  | indexError
  | attributeError
deriving DecidableEq, Repr

/-- The configuration-module attributes read by `pricing_engine.py`
(`import pricing_config as cfg`). `DENSITY_LB_PER_IN3` is `Option`-valued
because `pricing_config.py` does not define that attribute (reading it is
an `AttributeError`) while `tuning_knobs.py` does. -/
structure Config where
  PRICE_PER_SQ_IN : List (String × List (ℚ × ℚ))
  LASER_PER_LINEAR_IN : ℚ
  MILL_LABOR_PER_HR : ℚ
  MILL_SPEED_IPM : ℚ
  CHAMFER_SPEED_IPM : ℚ
  LOAD_TIME_MINS : ℚ
  INSPECTION_MINS_BY_TOL : List (ℚ × ℚ)
  LEAD_TIME_MULTIPLIER : List (ℤ × ℚ)
  QTY_DISCOUNT_TIERS : List Tier
  DENSITY_LB_PER_IN3 : Option (List (String × ℚ))
deriving DecidableEq, Repr

instance {ε α : Type} [DecidableEq ε] [DecidableEq α] : DecidableEq (Except ε α) := fun a b =>
  match a, b with
  | .ok x, .ok y =>
    if h : x = y then .isTrue (h ▸ rfl) else .isFalse fun he => h (Except.ok.inj he)
  | .ok _, .error _ => .isFalse fun he => Except.noConfusion he
  | .error _, .ok _ => .isFalse fun he => Except.noConfusion he
  | .error e, .error f =>
    if h : e = f then .isTrue (h ▸ rfl) else .isFalse fun he => h (Except.error.inj he)

/-- First-match association-list lookup, modelling Python dict indexing
(the embedded dict literals all have distinct keys). -/
def alookup {α β : Type} [DecidableEq α] : List (α × β) → α → Option β
  | [], _ => none
  | (k, v) :: rest, key => if key = k then some v else alookup rest key

/-- `dict.get(key, dflt)`. -/
def lookupD {α β : Type} [DecidableEq α] (l : List (α × β)) (k : α) (d : β) : β :=
  (alookup l k).getD d

/-- Python 3 `round(x)`: round half to even. -/
def pyRound (x : ℚ) : ℤ :=
  let f := ⌊x⌋
  let r := x - f
  if r < 1/2 then f
  else if 1/2 < r then f + 1
  else if f % 2 = 0 then f else f + 1

/-- Python `round(x, 2)`. -/
def round2 (x : ℚ) : ℚ := pyRound (x * 100) / 100

/-- Python `round(x, 4)`. -/
def round4 (x : ℚ) : ℚ := pyRound (x * 10000) / 10000

/-- Modelled from the spec: the "round-half-up" integer minor-unit
conversion the spec prescribes for `round(x*100)` (spec §4 point 3). Used only to
compare against the code's rounding; the code itself uses Python `round`. -/
def roundHalfUp (x : ℚ) : ℤ :=
  if 1/2 ≤ x - ⌊x⌋ then ⌊x⌋ + 1 else ⌊x⌋

/-- Sort key order used by `sorted(cfg.QTY_DISCOUNT_TIERS, key=lambda t: t["min_qty"])`. -/
def tle (a b : Tier) : Prop := a.min_qty ≤ b.min_qty

instance : DecidableRel tle := fun a b => inferInstanceAs (Decidable (a.min_qty ≤ b.min_qty))

instance : IsTotal Tier tle := ⟨fun a b => le_total a.min_qty b.min_qty⟩

instance : IsTrans Tier tle := ⟨fun _ _ _ h h' => le_trans h h'⟩

/-- Python's stable `sorted` by `min_qty`, modelled with insertion sort
(also stable, hence the same output). -/
def sortTiers (l : List Tier) : List Tier := List.insertionSort tle l

/-- The `for tier in tiers: if qty >= min: multiplier = ... else: break`
walk of `_qty_multiplier`, carrying the current multiplier. -/
def tierWalk (qty : ℤ) (m : ℚ) : List Tier → ℚ
  | [] => m
  | t :: ts => if t.min_qty ≤ qty then tierWalk qty t.multiplier ts else m

/-- `_qty_multiplier` of `pricing_engine.py`, parametrised by the
`cfg.QTY_DISCOUNT_TIERS` it reads; `none` models the `IndexError` of
`tiers[0]` on an empty tier list. -/
def _qty_multiplier (tiers : List Tier) (qty : ℤ) : Option ℚ :=
  match sortTiers tiers with
  | [] => none
  | t :: ts => some (tierWalk qty t.multiplier (t :: ts))

/-- `_ups_rule_shipping_cents` of `pricing_engine.py`. -/
def upsRuleShippingCents (weight_lb length_in width_in height_in : ℚ) : Shipping :=
  let dim_weight := (length_in * width_in * height_in) / 139
  let billable_weight : ℤ := ⌈max weight_lb (max dim_weight 1)⌉
  let ground : ℚ := 12 + ((95/100 : ℚ) * (billable_weight : ℚ))
  let two_day := ground * (185/100 : ℚ)
  let next_day := ground * (285/100 : ℚ)
  { ups_ground_cents := pyRound (ground * 100)
    ups_2day_cents := pyRound (two_day * 100)
    ups_nextday_cents := pyRound (next_day * 100) }

/-- The result dict built at the end of `calculate_quote`, as a function of
the looked-up configuration values. -/
def mkQuote (cfg : Config) (x : QuoteInputs) (price insp_mins multiplier qty_mult density : ℚ) :
    Quote :=
  let paddle_radius := x.paddle_dia / 2
  let area_sq_in := x.paddle_dia * (x.handle_length_from_bore + paddle_radius)
  let linear_inches := x.handle_width + x.handle_length_from_bore * 2 + paddle_radius * (314/100 : ℚ)
  let material_cost := area_sq_in * price
  let laser_cost := linear_inches * cfg.LASER_PER_LINEAR_IN
  let machine_bore_cost := (((314/100 : ℚ) * x.bore_dia) * (cfg.MILL_LABOR_PER_HR / cfg.MILL_SPEED_IPM)) * 2
  let chamfer_bore_cost :=
    if x.chamfer then (((314/100 : ℚ) * x.bore_dia) * (cfg.MILL_LABOR_PER_HR / cfg.CHAMFER_SPEED_IPM)) * 2
    else 0
  let load_cost := (cfg.MILL_LABOR_PER_HR / 60) * cfg.LOAD_TIME_MINS
  let inspection_cost := (cfg.MILL_LABOR_PER_HR / 60) * insp_mins
  let subtotal := material_cost + laser_cost + machine_bore_cost + chamfer_bore_cost
    + load_cost + inspection_cost
  let unit_price := subtotal * multiplier
  let unit_price_discounted := unit_price * qty_mult
  let total_price := unit_price_discounted * x.quantity
  let product_len_in := x.handle_length_from_bore + paddle_radius
  let pkg_len_in := product_len_in + 4
  let pkg_w_in := x.paddle_dia + 4
  let pkg_h_in := 1 + (max (x.quantity - 1) 0 : ℤ) * x.thickness
  let unit_weight_lb := area_sq_in * x.thickness * density
  let total_weight_lb := unit_weight_lb * x.quantity
  { area_sq_in := round4 area_sq_in
    linear_inches := round4 linear_inches
    material_cost := round2 material_cost
    laser_cost := round2 laser_cost
    machine_bore_cost := round2 machine_bore_cost
    chamfer_bore_cost := round2 chamfer_bore_cost
    load_cost := round2 load_cost
    inspection_cost := round2 inspection_cost
    subtotal_pre_multiplier := round2 subtotal
    lead_time_multiplier := multiplier
    unit_price_pre_qty_discount := round2 unit_price
    qty_discount_multiplier := qty_mult
    unit_price := round2 unit_price_discounted
    quantity := x.quantity
    total_price := round2 total_price
    estimated_unit_weight_lb := round2 unit_weight_lb
    estimated_total_weight_lb := round2 total_weight_lb
    estimated_package_in :=
      { length := round2 pkg_len_in, width := round2 pkg_w_in, height := round2 pkg_h_in }
    shipping := upsRuleShippingCents total_weight_lb pkg_len_in pkg_w_in pkg_h_in
    handle_label := x.handle_label
    chamfer_width := x.chamfer_width }

/-- `calculate_quote` of `pricing_engine.py`, parametrised by the
configuration module it reads through `cfg`. Validation happens first, in
source order; the `_qty_multiplier` call (line 135) precedes the
`cfg.DENSITY_LB_PER_IN3` read (line 149). -/
def calculate_quote (cfg : Config) (x : QuoteInputs) : Except PyErr Quote :=
  if x.quantity < 1 then .error (.valueError .qtyLow) else
  match alookup cfg.PRICE_PER_SQ_IN x.material with
  | none => .error (.valueError (.unknownMaterial x.material))
  | some tmap =>
    match alookup tmap x.thickness with
    | none => .error (.valueError (.noPriceForThickness x.thickness x.material))
    | some price =>
      match alookup cfg.INSPECTION_MINS_BY_TOL x.bore_tolerance with
      | none => .error (.valueError (.unsupportedBoreTol x.bore_tolerance))
      | some insp_mins =>
        match alookup cfg.LEAD_TIME_MULTIPLIER x.ships_in_days with
        | none => .error (.valueError (.unsupportedShipsInDays x.ships_in_days))
        | some multiplier =>
          match _qty_multiplier cfg.QTY_DISCOUNT_TIERS x.quantity with
          | none => .error .indexError
          | some qty_mult =>
            match cfg.DENSITY_LB_PER_IN3 with
            | none => .error .attributeError
            | some dtable =>
              match alookup dtable x.material with
              | none => .error .keyError
              | some density =>
                .ok (mkQuote cfg x price insp_mins multiplier qty_mult density)

/-- The five `QTY_DISCOUNT_TIERS` (identical literals in
`pricing_config.py` and `tuning_knobs.py`). -/
def QTY_DISCOUNT_TIERS : List Tier :=
  [⟨1, (100/100 : ℚ)⟩, ⟨5, (97/100 : ℚ)⟩, ⟨10, (95/100 : ℚ)⟩, ⟨25, (92/100 : ℚ)⟩, ⟨50, (90/100 : ℚ)⟩]

/-- `INSPECTION_MINS_BY_TOL` (identical in both config modules). -/
def INSPECTION_MINS_BY_TOL : List (ℚ × ℚ) := [((5/1000 : ℚ), 6), ((2/1000 : ℚ), 12), ((1/1000 : ℚ), 18)]

/-- `LEAD_TIME_MULTIPLIER` of `pricing_config.py` /
`LEAD_TIME_MULTIPLIER_MASTER` of `tuning_knobs.py`. -/
def LEAD_TIME_MULTIPLIER_MASTER : List (ℤ × ℚ) := [(7, (23/10 : ℚ)), (14, (16/10 : ℚ)), (21, (10/10 : ℚ))]

/-- `LEAD_TIME_ENABLED` in `tuning_knobs.py` under the `"normal"` preset. -/
def LEAD_TIME_ENABLED : List (ℤ × Bool) := [(7, true), (14, true), (21, true)]

/-- The filtered `LEAD_TIME_MULTIPLIER` computed at the bottom of
`tuning_knobs.py`. -/
def tuningLeadTimeMultiplier : List (ℤ × ℚ) :=
  LEAD_TIME_MULTIPLIER_MASTER.filter (fun dv => lookupD LEAD_TIME_ENABLED dv.1 false)

/-- `PRICE_PER_SQ_IN` literal of `pricing_config.py`. -/
def pricingConfigPrice : List (String × List (ℚ × ℚ)) :=
  [("304", [((125/1000 : ℚ), (220/1000 : ℚ)), ((25/100 : ℚ), (425/1000 : ℚ)), ((375/1000 : ℚ), (460/1000 : ℚ))]),
   ("316", [((125/1000 : ℚ), (270/1000 : ℚ)), ((25/100 : ℚ), (440/1000 : ℚ)), ((375/1000 : ℚ), (580/1000 : ℚ))]),
   ("Carbon Steel", [((125/1000 : ℚ), (90/1000 : ℚ)), ((25/100 : ℚ), (100/1000 : ℚ)), ((375/1000 : ℚ), (130/1000 : ℚ))]),
   ("Monel", [((125/1000 : ℚ), (2780/1000 : ℚ)), ((25/100 : ℚ), (6670/1000 : ℚ))]),
   ("Hastelloy", [((125/1000 : ℚ), (3580/1000 : ℚ)), ((25/100 : ℚ), (7540/1000 : ℚ)), ((375/1000 : ℚ), (14020/1000 : ℚ))])]

/-- The raw `PRICE_PER_SQ_IN` literal at the top of `tuning_knobs.py`
(before the module-level availability filtering). -/
def tuningRawPrice : List (String × List (ℚ × ℚ)) :=
  [("304", [((120/1000 : ℚ), (1302/10000 : ℚ)), ((250/1000 : ℚ), (2564/10000 : ℚ)), ((375/1000 : ℚ), (3814/10000 : ℚ)), ((500/1000 : ℚ), (6307/10000 : ℚ))]),
   ("316", [((120/1000 : ℚ), (1868/10000 : ℚ)), ((250/1000 : ℚ), (3763/10000 : ℚ)), ((375/1000 : ℚ), (5710/10000 : ℚ)), ((500/1000 : ℚ), (8773/10000 : ℚ))]),
   ("Carbon Steel", [((120/1000 : ℚ), (4785/100000 : ℚ)), ((250/1000 : ℚ), (7444/100000 : ℚ)), ((375/1000 : ℚ), (11065/100000 : ℚ)), ((500/1000 : ℚ), (15030/100000 : ℚ))])]

/-- `MATERIAL_ENABLED` of `tuning_knobs.py`. -/
def MATERIAL_ENABLED : List (String × Bool) :=
  [("304", true), ("316", true), ("Carbon Steel", true),
   ("Monel", false), ("Hastelloy", false)]

/-- `THICKNESS_ENABLED_BY_MATERIAL` of `tuning_knobs.py`. -/
def THICKNESS_ENABLED_BY_MATERIAL : List (String × List (ℚ × Bool)) :=
  [("304", [((125/1000 : ℚ), true), ((25/100 : ℚ), true), ((375/1000 : ℚ), true), ((5/10 : ℚ), true)]),
   ("316", [((125/1000 : ℚ), true), ((25/100 : ℚ), true), ((375/1000 : ℚ), true), ((5/10 : ℚ), true)]),
   ("Carbon Steel", [((125/1000 : ℚ), true), ((25/100 : ℚ), true), ((375/1000 : ℚ), true), ((5/10 : ℚ), true)]),
   ("Monel", [((125/1000 : ℚ), true), ((25/100 : ℚ), true), ((5/10 : ℚ), false)]),
   ("Hastelloy", [((125/1000 : ℚ), true), ((25/100 : ℚ), true), ((375/1000 : ℚ), true), ((5/10 : ℚ), true)])]

/-- `_is_thickness_enabled` of `tuning_knobs.py`. -/
def tuningIsThicknessEnabled (material : String) (thickness : ℚ) : Bool :=
  if ¬ lookupD MATERIAL_ENABLED material false then false
  else
    match alookup THICKNESS_ENABLED_BY_MATERIAL material with
    | none => true
    | some enabled_map => lookupD enabled_map thickness false

/-- The module-level loop of `tuning_knobs.py` that filters
`PRICE_PER_SQ_IN` by the availability toggles (dropping materials whose
filtered thickness map is empty). -/
def tuningEffectivePrice : List (String × List (ℚ × ℚ)) :=
  tuningRawPrice.filterMap (fun p =>
    if ¬ lookupD MATERIAL_ENABLED p.1 false then none
    else
      let filtered_th := p.2.filter (fun tp => tuningIsThicknessEnabled p.1 tp.1)
      if filtered_th.isEmpty then none else some (p.1, filtered_th))

/-- `DENSITY_LB_PER_IN3` of `tuning_knobs.py`. -/
def DENSITY_LB_PER_IN3 : List (String × ℚ) :=
  [("304", (289/1000 : ℚ)), ("316", (289/1000 : ℚ)), ("Carbon Steel", (283/1000 : ℚ)),
   ("Monel", (319/1000 : ℚ)), ("Hastelloy", (322/1000 : ℚ))]

/-- `WEIGHT_MULTIPLIER_BY_MATERIAL` of `tuning_knobs.py` (defined there,
but never read by `pricing_engine.py`). -/
def WEIGHT_MULTIPLIER_BY_MATERIAL : List (String × ℚ) :=
  [("304", (106/100 : ℚ)), ("316", (106/100 : ℚ)), ("Carbon Steel", (100/100 : ℚ))]

/-- The configuration module `pricing_engine.py` actually imports
(`import pricing_config as cfg`); it defines no `DENSITY_LB_PER_IN3`. -/
def cfgPricing : Config :=
  { PRICE_PER_SQ_IN := pricingConfigPrice
    LASER_PER_LINEAR_IN := (826/1000 : ℚ)
    MILL_LABOR_PER_HR := 150
    MILL_SPEED_IPM := 28
    CHAMFER_SPEED_IPM := 28
    LOAD_TIME_MINS := 6
    INSPECTION_MINS_BY_TOL := INSPECTION_MINS_BY_TOL
    LEAD_TIME_MULTIPLIER := LEAD_TIME_MULTIPLIER_MASTER
    QTY_DISCOUNT_TIERS := QTY_DISCOUNT_TIERS
    DENSITY_LB_PER_IN3 := none }

/-- The `tuning_knobs.py` module after its module-level filtering — the
configuration the API service applies (and which has all the tables the
engine reads, including the density table). -/
def cfgTuning : Config :=
  { PRICE_PER_SQ_IN := tuningEffectivePrice
    LASER_PER_LINEAR_IN := (826/1000 : ℚ)
    MILL_LABOR_PER_HR := 150
    MILL_SPEED_IPM := 28
    CHAMFER_SPEED_IPM := 28
    LOAD_TIME_MINS := 6
    INSPECTION_MINS_BY_TOL := INSPECTION_MINS_BY_TOL
    LEAD_TIME_MULTIPLIER := tuningLeadTimeMultiplier
    QTY_DISCOUNT_TIERS := QTY_DISCOUNT_TIERS
    DENSITY_LB_PER_IN3 := some DENSITY_LB_PER_IN3 }

/-- The price-table filtering step of `_apply_cfg_from_db_config`
(`api_app.py` lines 426–447): keep a `(material, thickness, price)` entry
only if the material is enabled and, when a thickness-enabled map exists
for the material, that map enables the thickness; materials whose
filtered thickness map ends up empty are dropped. -/
def apiFilterPrice (me : List (String × Bool)) (th : List (String × List (ℚ × Bool)))
    (ppsi : List (String × List (ℚ × ℚ))) : List (String × List (ℚ × ℚ)) :=
  ppsi.filterMap (fun p =>
    if ¬ lookupD me p.1 false then none
    else
      let ts := p.2.filter (fun tp =>
        match alookup th p.1 with
        | some enabled_map => lookupD enabled_map tp.1 false
        | none => true)
      if ts.isEmpty then none else some (p.1, ts))

/-- The effective-price-table resolution of `_apply_cfg_from_db_config`
(`api_app.py` lines 387–389 and 426–466): an empty override price table
is replaced by the baseline up front; after filtering, an empty result
falls back to the baseline filtered by the same enabled flags. -/
def applyPricePerSqIn (me : List (String × Bool)) (th : List (String × List (ℚ × Bool)))
    (override baseline : List (String × List (ℚ × ℚ))) : List (String × List (ℚ × ℚ)) :=
  let ppsi := if override.isEmpty then baseline else override
  let final := apiFilterPrice me th ppsi
  if final.isEmpty then apiFilterPrice me th baseline else final

/-- `True` iff the engine returned a quote rather than raising. -/
def isOkB (r : Except PyErr Quote) : Bool :=
  match r with
  | .ok _ => true
  | .error _ => false

/-- The spec's §8 end-to-end example input (chamfer width defaulted by the
request layer to 0.062). -/
def xMain : QuoteInputs :=
  { quantity := 1
    material := "304"
    thickness := (25/100 : ℚ)
    handle_width := 2
    handle_length_from_bore := 18
    paddle_dia := 6
    bore_dia := 2
    bore_tolerance := (5/1000 : ℚ)
    chamfer := true
    ships_in_days := 21
    handle_label := "No label"
    chamfer_width := some (62/1000 : ℚ) }

/-- Modelled from the spec (§4.4): the multiplier of the last tier of the
ascending-sorted list whose `min_qty` is ≤ the quantity, defaulting to the
lowest tier's multiplier when the quantity is below every threshold, and
failing on an empty tier list. -/
def specTierMult (tiers : List Tier) (qty : ℤ) : Option ℚ :=
  match sortTiers tiers with
  | [] => none
  | t :: ts =>
    some (match ((t :: ts).filter fun u => decide (u.min_qty ≤ qty)).getLast? with
      | some u => u.multiplier
      | none => t.multiplier)

/-- Closed form of the quantity-discount walk over the configured
five-tier table. -/
def stdMult (n : ℤ) : ℚ :=
  if 50 ≤ n then 90/100
  else if 25 ≤ n then 92/100
  else if 10 ≤ n then 95/100
  else if 5 ≤ n then 97/100
  else 1

/-- Modelled from the spec (§4.3): the itemized cost subtotal written with
the spec's formulas, as a function of the two looked-up values. -/
def subtotalSpec (cfg : Config) (x : QuoteInputs) (price insp_mins : ℚ) : ℚ :=
  x.paddle_dia * (x.handle_length_from_bore + x.paddle_dia / 2) * price
  + (x.handle_width + 2 * x.handle_length_from_bore + (x.paddle_dia / 2) * (314/100))
      * cfg.LASER_PER_LINEAR_IN
  + ((314/100) * x.bore_dia) * (cfg.MILL_LABOR_PER_HR / cfg.MILL_SPEED_IPM) * 2
  + (if x.chamfer then ((314/100) * x.bore_dia) * (cfg.MILL_LABOR_PER_HR / cfg.CHAMFER_SPEED_IPM) * 2
     else 0)
  + (cfg.MILL_LABOR_PER_HR / 60) * cfg.LOAD_TIME_MINS
  + (cfg.MILL_LABOR_PER_HR / 60) * insp_mins

/-- Claim C1's property of a returned quote: the geometry and cost fields
are the spec's formulas (with the legacy 3.14 in place of π) evaluated at
the looked-up configuration values, display-rounded to 4 or 2 places. -/
def QuoteFormulaSpec (cfg : Config) (x : QuoteInputs) (q : Quote) : Prop :=
  ∃ tmap price insp_mins lt qm,
    alookup cfg.PRICE_PER_SQ_IN x.material = some tmap ∧
    alookup tmap x.thickness = some price ∧
    alookup cfg.INSPECTION_MINS_BY_TOL x.bore_tolerance = some insp_mins ∧
    alookup cfg.LEAD_TIME_MULTIPLIER x.ships_in_days = some lt ∧
    _qty_multiplier cfg.QTY_DISCOUNT_TIERS x.quantity = some qm ∧
    q.area_sq_in = round4 (x.paddle_dia * (x.handle_length_from_bore + x.paddle_dia / 2)) ∧
    q.linear_inches
      = round4 (x.handle_width + 2 * x.handle_length_from_bore + (x.paddle_dia / 2) * (314/100)) ∧
    q.subtotal_pre_multiplier = round2 (subtotalSpec cfg x price insp_mins) ∧
    q.unit_price = round2 (subtotalSpec cfg x price insp_mins * lt * qm) ∧
    q.total_price = round2 (subtotalSpec cfg x price insp_mins * lt * qm * x.quantity)

/-- Claim C5's property of a returned quote: the estimated shipping
weights come from area × thickness × density (the code applies no
per-material weight-correction factor). -/
def WeightSpec (cfg : Config) (x : QuoteInputs) (q : Quote) : Prop :=
  ∃ dt dens,
    cfg.DENSITY_LB_PER_IN3 = some dt ∧
    alookup dt x.material = some dens ∧
    q.estimated_unit_weight_lb
      = round2 (x.paddle_dia * (x.handle_length_from_bore + x.paddle_dia / 2) * x.thickness * dens) ∧
    q.estimated_total_weight_lb
      = round2 (x.paddle_dia * (x.handle_length_from_bore + x.paddle_dia / 2) * x.thickness * dens
          * x.quantity)

/-- Claim C6's billable weight: ceil of the max of total weight,
dimensional weight (package volume / 139) and 1. -/
def billableSpec (x : QuoteInputs) (dens : ℚ) : ℤ :=
  let area := x.paddle_dia * (x.handle_length_from_bore + x.paddle_dia / 2)
  let total_w := area * x.thickness * dens * x.quantity
  let L := x.handle_length_from_bore + x.paddle_dia / 2 + 4
  let W := x.paddle_dia + 4
  let H := 1 + (max (x.quantity - 1) 0 : ℤ) * x.thickness
  ⌈max total_w (max ((L * W * H) / 139) 1)⌉

/-- Claim C6's property of a returned quote: the three shipping rates are
base fee + per-lb rate × billable weight, with fixed 1.85×/2.85×
expedited multipliers, converted to integer cents with Python's `round`
(round half to even — not the round-half-up the spec prescribes). -/
def ShippingSpec (cfg : Config) (x : QuoteInputs) (q : Quote) : Prop :=
  ∃ dt dens,
    cfg.DENSITY_LB_PER_IN3 = some dt ∧
    alookup dt x.material = some dens ∧
    q.shipping.ups_ground_cents
      = pyRound ((12 + (95/100) * (billableSpec x dens : ℚ)) * 100) ∧
    q.shipping.ups_2day_cents
      = pyRound ((12 + (95/100) * (billableSpec x dens : ℚ)) * (185/100) * 100) ∧
    q.shipping.ups_nextday_cents
      = pyRound ((12 + (95/100) * (billableSpec x dens : ℚ)) * (285/100) * 100)

/-- Zero out exactly the quote fields that the chamfer flag feeds into:
the chamfer machining cost and the price aggregates built from it.
Two quotes are `scrubChamfer`-equal iff they agree on every other field. -/
def scrubChamfer (q : Quote) : Quote :=
  { q with
    chamfer_bore_cost := 0
    subtotal_pre_multiplier := 0
    unit_price_pre_qty_discount := 0
    unit_price := 0
    total_price := 0 }

/-- The three-tier example table used by the spec's §8 tier-boundary
property. -/
def exampleTiers : List Tier := [⟨1, 1⟩, ⟨5, 97/100⟩, ⟨10, 95/100⟩]

/-- The spec example input with the chamfer switched off. -/
def xMainNoChamfer : QuoteInputs := { xMain with chamfer := false }

/-- The spec example input at quantity 49 (just below the 50-unit tier). -/
def xMain49 : QuoteInputs := { xMain with quantity := 49 }

/-- The spec example input at quantity 50 (at the 50-unit tier). -/
def xMain50 : QuoteInputs := { xMain with quantity := 50 }

/-- The spec example input with `quantity = 0` (fails the first check). -/
def xQty0 : QuoteInputs := { xMain with quantity := 0 }

/-- The spec example input with `bore_dia = paddle_dia = 6`. -/
def xEqBore : QuoteInputs := { xMain with bore_dia := 6 }

/-- The spec example input with `handle_length_from_bore = paddle_dia/2 = 3`. -/
def xShortHandle : QuoteInputs := { xMain with handle_length_from_bore := 3 }

/-- The spec example input with `paddle_dia = 49 > 48`. -/
def xBigPaddle : QuoteInputs := { xMain with paddle_dia := 49 }

/-- A validated input whose billable shipping weight is 6 lb, putting the
2-day rate exactly on a half-cent (3274.5 cents). -/
def xShip : QuoteInputs :=
  { quantity := 4
    material := "Carbon Steel"
    thickness := 1/4
    handle_width := 1
    handle_length_from_bore := 3
    paddle_dia := 4
    bore_dia := 1
    bore_tolerance := 5/1000
    chamfer := false
    ships_in_days := 21
    handle_label := "No label"
    chamfer_width := none }

/-- The tuning configuration with an empty quantity-discount tier table. -/
def cfgTuningEmptyTiers : Config := { cfgTuning with QTY_DISCOUNT_TIERS := [] }

/-- The tuning configuration with a density table missing `"304"`
(a material present in the price table but absent from the density
table). -/
def cfgTuningBadDensity : Config :=
  { cfgTuning with DENSITY_LB_PER_IN3 := some [("316", 289/1000)] }

/-- A `material_enabled` override that disables every material. -/
def meAllOff : List (String × Bool) :=
  [("304", false), ("316", false), ("Carbon Steel", false),
   ("Monel", false), ("Hastelloy", false)]

/-- The quote the engine returns for `xMain` under the tuning
configuration (reference values of the end-to-end example). -/
def qMain : Quote :=
  { area_sq_in := 126
    linear_inches := 2371/50
    material_cost := 3231/100
    laser_cost := 3917/100
    machine_bore_cost := 6729/100
    chamfer_bore_cost := 6729/100
    load_cost := 15
    inspection_cost := 15
    subtotal_pre_multiplier := 4721/20
    lead_time_multiplier := 1
    unit_price_pre_qty_discount := 4721/20
    qty_discount_multiplier := 1
    unit_price := 4721/20
    quantity := 1
    total_price := 4721/20
    estimated_unit_weight_lb := 91/10
    estimated_total_weight_lb := 91/10
    estimated_package_in := { length := 25, width := 10, height := 1 }
    shipping := { ups_ground_cents := 2150, ups_2day_cents := 3978, ups_nextday_cents := 6128 }
    handle_label := "No label"
    chamfer_width := some (62/1000) }

/-- The quote for `xMainNoChamfer`. -/
def qMainNoChamfer : Quote :=
  { qMain with
    chamfer_bore_cost := 0
    subtotal_pre_multiplier := 4219/25
    unit_price_pre_qty_discount := 4219/25
    unit_price := 4219/25
    total_price := 4219/25 }

/-- The quote for `xMain49`. -/
def qMain49 : Quote :=
  { qMain with
    qty_discount_multiplier := 23/25
    unit_price := 5429/25
    quantity := 49
    total_price := 1064099/100
    estimated_total_weight_lb := 44607/100
    estimated_package_in := { length := 25, width := 10, height := 13 }
    shipping := { ups_ground_cents := 43665, ups_2day_cents := 80780, ups_nextday_cents := 124445 } }

/-- The quote for `xMain50`. -/
def qMain50 : Quote :=
  { qMain with
    qty_discount_multiplier := 9/10
    unit_price := 5311/25
    quantity := 50
    total_price := 106221/10
    estimated_total_weight_lb := 22759/50
    estimated_package_in := { length := 25, width := 10, height := 53/4 }
    shipping := { ups_ground_cents := 44520, ups_2day_cents := 82362, ups_nextday_cents := 126882 } }

/-- The quote for `xShip`. -/
def qShip : Quote :=
  { area_sq_in := 20
    linear_inches := 332/25
    material_cost := 149/100
    laser_cost := 1097/100
    machine_bore_cost := 841/25
    chamfer_bore_cost := 0
    load_cost := 15
    inspection_cost := 15
    subtotal_pre_multiplier := 761/10
    lead_time_multiplier := 1
    unit_price_pre_qty_discount := 761/10
    qty_discount_multiplier := 1
    unit_price := 761/10
    quantity := 4
    total_price := 1522/5
    estimated_unit_weight_lb := 71/50
    estimated_total_weight_lb := 283/50
    estimated_package_in := { length := 9, width := 8, height := 7/4 }
    shipping := { ups_ground_cents := 1770, ups_2day_cents := 3274, ups_nextday_cents := 5044 }
    handle_label := "No label"
    chamfer_width := none }

theorem ceil_via_floor (a : ℚ) : ⌈a⌉ = -⌊-a⌋ := by
  rw [Int.floor_neg, neg_neg]

theorem alookup_mem {α β : Type} [DecidableEq α] {l : List (α × β)} {k : α} {v : β}
    (h : alookup l k = some v) : (k, v) ∈ l := by
  induction l with
  | nil => simp [alookup] at h
  | cons p rest ih =>
    rw [alookup] at h
    split at h
    · obtain ⟨rfl⟩ := h
      next heq => simp [heq]
    · exact List.mem_cons_of_mem _ (ih h)

theorem pyRound_bounds (x : ℚ) : ⌊x⌋ ≤ pyRound x ∧ pyRound x ≤ ⌊x⌋ + 1 := by
  simp only [pyRound]
  split_ifs <;> omega

theorem pyRound_mono {x y : ℚ} (h : x ≤ y) : pyRound x ≤ pyRound y := by
  rcases lt_or_le ⌊x⌋ ⌊y⌋ with hf | hf
  · have hx := (pyRound_bounds x).2
    have hy := (pyRound_bounds y).1
    omega
  · have hf' : ⌊x⌋ = ⌊y⌋ := le_antisymm (Int.floor_le_floor h) hf
    have hr : x - ⌊x⌋ ≤ y - ⌊y⌋ := by
      rw [hf']
      exact sub_le_sub_right h _
    simp only [pyRound]
    rw [hf'] at hr ⊢
    split_ifs <;> first | omega | (exfalso; linarith)

theorem round2_mono {x y : ℚ} (h : x ≤ y) : round2 x ≤ round2 y := by
  unfold round2
  have hpq : pyRound (x * 100) ≤ pyRound (y * 100) := pyRound_mono (by linarith)
  have h100 : (0 : ℚ) < 100 := by norm_num
  exact (div_le_div_iff_of_pos_right h100).mpr (by exact_mod_cast hpq)

theorem sortTiers_std : sortTiers QTY_DISCOUNT_TIERS = QTY_DISCOUNT_TIERS := by
  norm_num [sortTiers, QTY_DISCOUNT_TIERS, tle, List.insertionSort, List.orderedInsert]

theorem qty_multiplier_std (n : ℤ) :
    _qty_multiplier QTY_DISCOUNT_TIERS n = some (stdMult n) := by
  rw [_qty_multiplier, sortTiers_std]
  show some _ = some _
  simp only [QTY_DISCOUNT_TIERS, tierWalk, stdMult]
  split_ifs <;> first | rfl | (norm_num; done) | (exfalso; omega)

theorem stdMult_anti {a b : ℤ} (h : a ≤ b) : stdMult b ≤ stdMult a := by
  unfold stdMult
  split_ifs <;> first | (norm_num; done) | (exfalso; omega) | norm_num

theorem stdMult_nonneg (n : ℤ) : 0 ≤ stdMult n := by
  unfold stdMult
  split_ifs <;> norm_num

theorem tierWalk_sorted (q : ℤ) (s : List Tier) :
    List.Pairwise tle s → ∀ m : ℚ,
    tierWalk q m s = (match (s.filter fun t => decide (t.min_qty ≤ q)).getLast? with
      | some t => t.multiplier
      | none => m) := by
  induction s with
  | nil => intro _ m; rfl
  | cons t ts ih =>
    intro hp m
    obtain ⟨hall, hts⟩ := List.pairwise_cons.mp hp
    by_cases hq : t.min_qty ≤ q
    · rw [tierWalk, if_pos hq, ih hts t.multiplier]
      have hcons : ((t :: ts).filter fun u => decide (u.min_qty ≤ q))
          = t :: (ts.filter fun u => decide (u.min_qty ≤ q)) := by
        simp [List.filter_cons, hq]
      rw [hcons]
      cases hf : ts.filter fun u => decide (u.min_qty ≤ q) with
      | nil => simp
      | cons a l =>
        rcases hsome : (a :: l).getLast? with _ | u
        · exact absurd (List.getLast?_eq_none_iff.mp hsome) (by simp)
        · rw [List.getLast?_cons_cons, hsome]
    · rw [tierWalk, if_neg hq]
      have hfil : ((t :: ts).filter fun u => decide (u.min_qty ≤ q)) = [] := by
        rw [List.filter_eq_nil_iff]
        intro a ha
        rcases List.mem_cons.mp ha with rfl | ha'
        · simpa using hq
        · have := hall a ha'
          unfold tle at this
          simp only [decide_eq_true_eq]
          omega
      rw [hfil]
      rfl

theorem cq_ok_inv {cfg : Config} {x : QuoteInputs} {q : Quote}
    (h : calculate_quote cfg x = .ok q) :
    ∃ tmap price insp_mins lt qm dt dens,
      ¬ x.quantity < 1 ∧
      alookup cfg.PRICE_PER_SQ_IN x.material = some tmap ∧
      alookup tmap x.thickness = some price ∧
      alookup cfg.INSPECTION_MINS_BY_TOL x.bore_tolerance = some insp_mins ∧
      alookup cfg.LEAD_TIME_MULTIPLIER x.ships_in_days = some lt ∧
      _qty_multiplier cfg.QTY_DISCOUNT_TIERS x.quantity = some qm ∧
      cfg.DENSITY_LB_PER_IN3 = some dt ∧
      alookup dt x.material = some dens ∧
      q = mkQuote cfg x price insp_mins lt qm dens := by
  unfold calculate_quote at h
  repeat' split at h
  all_goals try exact Except.noConfusion h
  exact ⟨_, _, _, _, _, _, _, by assumption, by assumption, by assumption, by assumption,
    by assumption, by assumption, by assumption, by assumption, (Except.ok.inj h).symm⟩

theorem tuningEffectivePrice_eq :
    tuningEffectivePrice =
      [("304", [(1/4, 641/2500), (3/8, 1907/5000), (1/2, 6307/10000)]),
       ("316", [(1/4, 3763/10000), (3/8, 571/1000), (1/2, 8773/10000)]),
       ("Carbon Steel", [(1/4, 1861/25000), (3/8, 2213/20000), (1/2, 1503/10000)])] := by
  norm_num [tuningEffectivePrice, tuningRawPrice, tuningIsThicknessEnabled, MATERIAL_ENABLED,
    THICKNESS_ENABLED_BY_MATERIAL, lookupD, alookup, List.filterMap_cons, List.filter_cons,
    List.isEmpty_cons, List.isEmpty_nil]

theorem tuningLeadTimeMultiplier_eq :
    tuningLeadTimeMultiplier = [(7, 23/10), (14, 8/5), (21, 1)] := by
  norm_num [tuningLeadTimeMultiplier, LEAD_TIME_MULTIPLIER_MASTER, LEAD_TIME_ENABLED,
    lookupD, alookup, List.filter_cons]

theorem price_nonneg {m : String} {tm : List (ℚ × ℚ)} {t p : ℚ}
    (h1 : alookup tuningEffectivePrice m = some tm) (h2 : alookup tm t = some p) : 0 ≤ p := by
  have h1m := alookup_mem h1
  rw [tuningEffectivePrice_eq] at h1m
  simp only [List.mem_cons, List.not_mem_nil, or_false, Prod.mk.injEq] at h1m
  have h2m := alookup_mem h2
  rcases h1m with ⟨_, rfl⟩ | ⟨_, rfl⟩ | ⟨_, rfl⟩ <;>
    simp only [List.mem_cons, List.not_mem_nil, or_false, Prod.mk.injEq] at h2m <;>
    rcases h2m with ⟨_, rfl⟩ | ⟨_, rfl⟩ | ⟨_, rfl⟩ <;> norm_num

theorem insp_nonneg {tol v : ℚ} (h : alookup INSPECTION_MINS_BY_TOL tol = some v) : 0 ≤ v := by
  have hm := alookup_mem h
  simp only [INSPECTION_MINS_BY_TOL, List.mem_cons, List.not_mem_nil, or_false,
    Prod.mk.injEq] at hm
  rcases hm with ⟨_, rfl⟩ | ⟨_, rfl⟩ | ⟨_, rfl⟩ <;> norm_num

theorem lead_nonneg {d : ℤ} {v : ℚ}
    (h : alookup tuningLeadTimeMultiplier d = some v) : 0 ≤ v := by
  rw [tuningLeadTimeMultiplier_eq] at h
  have hm := alookup_mem h
  simp only [List.mem_cons, List.not_mem_nil, or_false, Prod.mk.injEq] at hm
  rcases hm with ⟨_, rfl⟩ | ⟨_, rfl⟩ | ⟨_, rfl⟩ <;> norm_num

theorem cq_xMain : calculate_quote cfgTuning xMain = .ok qMain := by
  have h1 : calculate_quote cfgTuning xMain
      = .ok (mkQuote cfgTuning xMain (641/2500) 6 1 (1) (289/1000)) := by
    norm_num [calculate_quote, alookup, lookupD, _qty_multiplier, sortTiers, tierWalk, tle,
      List.insertionSort, List.orderedInsert, cfgTuning, tuningEffectivePrice_eq,
      QTY_DISCOUNT_TIERS, INSPECTION_MINS_BY_TOL, tuningLeadTimeMultiplier_eq,
      DENSITY_LB_PER_IN3, xMain]
  rw [h1]
  congr 1
  norm_num [mkQuote, upsRuleShippingCents, pyRound, round2, round4, Int.fract, ceil_via_floor,
    max_def, cfgTuning, Quote.mk.injEq, PackageIn.mk.injEq, Shipping.mk.injEq, xMain, qMain]

theorem cq_xMainNoChamfer : calculate_quote cfgTuning xMainNoChamfer = .ok qMainNoChamfer := by
  have h1 : calculate_quote cfgTuning xMainNoChamfer
      = .ok (mkQuote cfgTuning xMainNoChamfer (641/2500) 6 1 (1) (289/1000)) := by
    norm_num [calculate_quote, alookup, lookupD, _qty_multiplier, sortTiers, tierWalk, tle,
      List.insertionSort, List.orderedInsert, cfgTuning, tuningEffectivePrice_eq,
      QTY_DISCOUNT_TIERS, INSPECTION_MINS_BY_TOL, tuningLeadTimeMultiplier_eq,
      DENSITY_LB_PER_IN3, xMainNoChamfer, xMain]
  rw [h1]
  congr 1
  norm_num [mkQuote, upsRuleShippingCents, pyRound, round2, round4, Int.fract, ceil_via_floor,
    max_def, cfgTuning, Quote.mk.injEq, PackageIn.mk.injEq, Shipping.mk.injEq, xMainNoChamfer, xMainNoChamfer, xMain, qMainNoChamfer, qMain]

theorem cq_xMain49 : calculate_quote cfgTuning xMain49 = .ok qMain49 := by
  have h1 : calculate_quote cfgTuning xMain49
      = .ok (mkQuote cfgTuning xMain49 (641/2500) 6 1 (23/25) (289/1000)) := by
    norm_num [calculate_quote, alookup, lookupD, _qty_multiplier, sortTiers, tierWalk, tle,
      List.insertionSort, List.orderedInsert, cfgTuning, tuningEffectivePrice_eq,
      QTY_DISCOUNT_TIERS, INSPECTION_MINS_BY_TOL, tuningLeadTimeMultiplier_eq,
      DENSITY_LB_PER_IN3, xMain49, xMain]
  rw [h1]
  congr 1
  norm_num [mkQuote, upsRuleShippingCents, pyRound, round2, round4, Int.fract, ceil_via_floor,
    max_def, cfgTuning, Quote.mk.injEq, PackageIn.mk.injEq, Shipping.mk.injEq, xMain49, xMain49, xMain, qMain49, qMain]

theorem cq_xMain50 : calculate_quote cfgTuning xMain50 = .ok qMain50 := by
  have h1 : calculate_quote cfgTuning xMain50
      = .ok (mkQuote cfgTuning xMain50 (641/2500) 6 1 (9/10) (289/1000)) := by
    norm_num [calculate_quote, alookup, lookupD, _qty_multiplier, sortTiers, tierWalk, tle,
      List.insertionSort, List.orderedInsert, cfgTuning, tuningEffectivePrice_eq,
      QTY_DISCOUNT_TIERS, INSPECTION_MINS_BY_TOL, tuningLeadTimeMultiplier_eq,
      DENSITY_LB_PER_IN3, xMain50, xMain]
  rw [h1]
  congr 1
  norm_num [mkQuote, upsRuleShippingCents, pyRound, round2, round4, Int.fract, ceil_via_floor,
    max_def, cfgTuning, Quote.mk.injEq, PackageIn.mk.injEq, Shipping.mk.injEq, xMain50, xMain50, xMain, qMain50, qMain]

theorem cq_xShip : calculate_quote cfgTuning xShip = .ok qShip := by
  have h1 : calculate_quote cfgTuning xShip
      = .ok (mkQuote cfgTuning xShip (1861/25000) 6 1 (1) (283/1000)) := by
    norm_num +decide [calculate_quote, alookup, lookupD, _qty_multiplier, sortTiers, tierWalk, tle,
      List.insertionSort, List.orderedInsert, cfgTuning, tuningEffectivePrice_eq,
      QTY_DISCOUNT_TIERS, INSPECTION_MINS_BY_TOL, tuningLeadTimeMultiplier_eq,
      DENSITY_LB_PER_IN3, xShip]
  rw [h1]
  congr 1
  norm_num [mkQuote, upsRuleShippingCents, pyRound, round2, round4, Int.fract, ceil_via_floor,
    max_def, cfgTuning, Quote.mk.injEq, PackageIn.mk.injEq, Shipping.mk.injEq, xShip, qShip]

theorem density_covers {m : String} {tm : List (ℚ × ℚ)}
    (h : alookup tuningEffectivePrice m = some tm) :
    ∃ d, alookup DENSITY_LB_PER_IN3 m = some d := by
  have hm := alookup_mem h
  rw [tuningEffectivePrice_eq] at hm
  simp only [List.mem_cons, List.not_mem_nil, or_false, Prod.mk.injEq] at hm
  rcases hm with ⟨rfl, _⟩ | ⟨rfl, _⟩ | ⟨rfl, _⟩
  · exact ⟨289/1000, by norm_num +decide [DENSITY_LB_PER_IN3, alookup]⟩
  · exact ⟨289/1000, by norm_num +decide [DENSITY_LB_PER_IN3, alookup]⟩
  · exact ⟨283/1000, by norm_num +decide [DENSITY_LB_PER_IN3, alookup]⟩

/-- C1: whenever `calculate_quote` returns a quote, its geometry and cost
fields are exactly the spec's formulas (legacy 3.14 for π, the additive
subtotal, unit price = subtotal × lead-time multiplier × quantity-discount
multiplier, total = unit price × quantity, display-rounded to 4 or 2
places); and under the full tuning configuration every input that passes
the five validation checks does produce a quote. -/
theorem c1_quote_formulas :
    (∀ (cfg : Config) (x : QuoteInputs) (q : Quote),
      calculate_quote cfg x = .ok q → QuoteFormulaSpec cfg x q) ∧
    (∀ x : QuoteInputs, 1 ≤ x.quantity →
      (∃ tm, alookup cfgTuning.PRICE_PER_SQ_IN x.material = some tm ∧
        (alookup tm x.thickness).isSome = true) →
      (alookup cfgTuning.INSPECTION_MINS_BY_TOL x.bore_tolerance).isSome = true →
      (alookup cfgTuning.LEAD_TIME_MULTIPLIER x.ships_in_days).isSome = true →
      ∃ q, calculate_quote cfgTuning x = .ok q) := by
  constructor
  · intro cfg x q h
    obtain ⟨tm, p, i, l, m, dt, de, hlt, htm, hp, hi, hl, hm, hdt, hde, rfl⟩ := cq_ok_inv h
    refine ⟨tm, p, i, l, m, htm, hp, hi, hl, hm, ?_, ?_, ?_, ?_, ?_⟩
    · simp only [mkQuote]
    · simp only [mkQuote]
      congr 1
      ring
    · cases hch : x.chamfer <;> simp only [mkQuote, subtotalSpec, hch] <;> norm_num <;>
        congr 1 <;> ring
    · cases hch : x.chamfer <;> simp only [mkQuote, subtotalSpec, hch] <;> norm_num <;>
        congr 1 <;> ring
    · cases hch : x.chamfer <;> simp only [mkQuote, subtotalSpec, hch] <;> norm_num <;>
        congr 1 <;> ring
  · intro x hq ⟨tm, htm, hth⟩ hi hl
    obtain ⟨p, hp⟩ := Option.isSome_iff_exists.mp hth
    obtain ⟨i', hi'⟩ := Option.isSome_iff_exists.mp hi
    obtain ⟨l', hl'⟩ := Option.isSome_iff_exists.mp hl
    obtain ⟨d, hd⟩ := density_covers (by simpa [cfgTuning] using htm)
    unfold calculate_quote
    rw [if_neg (by omega)]
    simp only [htm, hp, hi', hl',
      show cfgTuning.QTY_DISCOUNT_TIERS = QTY_DISCOUNT_TIERS from rfl, qty_multiplier_std,
      show cfgTuning.DENSITY_LB_PER_IN3 = some DENSITY_LB_PER_IN3 from rfl, hd]
    exact ⟨_, rfl⟩

/-- C1 witness: the formulas and totality instantiated at the end-to-end
example input under the tuning configuration. -/
theorem c1_quote_formulas_witness :
    QuoteFormulaSpec cfgTuning xMain qMain ∧ ∃ q, calculate_quote cfgTuning xMain = .ok q :=
  ⟨c1_quote_formulas.1 cfgTuning xMain qMain cq_xMain,
   c1_quote_formulas.2 xMain (by norm_num [xMain])
     ⟨[(1/4, 641/2500), (3/8, 1907/5000), (1/2, 6307/10000)],
       by norm_num [cfgTuning, tuningEffectivePrice_eq, alookup, xMain],
       by norm_num [alookup, xMain]⟩
     (by norm_num [cfgTuning, INSPECTION_MINS_BY_TOL, alookup, xMain])
     (by norm_num [cfgTuning, tuningLeadTimeMultiplier_eq, alookup, xMain])⟩

/-- C3: on any non-empty tier list and quantity ≥ 1, `_qty_multiplier`
sorts ascending by `min_qty` and returns the multiplier of the last tier
whose threshold is met (inclusive boundary, lowest tier's multiplier below
the lowest threshold, highest tier's multiplier above the highest, no
extrapolation); on the three-tier example table quantities 4, 5, 9, 10
give 1.00, 0.97, 0.97, 0.95. -/
theorem c3_qty_tiers :
    (∀ (tiers : List Tier) (qty : ℤ), tiers ≠ [] → 1 ≤ qty →
      _qty_multiplier tiers qty = specTierMult tiers qty ∧
        (specTierMult tiers qty).isSome = true) ∧
    _qty_multiplier exampleTiers 4 = some 1 ∧
    _qty_multiplier exampleTiers 5 = some (97/100) ∧
    _qty_multiplier exampleTiers 9 = some (97/100) ∧
    _qty_multiplier exampleTiers 10 = some (95/100) := by
  constructor
  · intro tiers qty hne _
    have hsorted : List.Pairwise tle (sortTiers tiers) := List.sorted_insertionSort tle tiers
    unfold _qty_multiplier specTierMult
    rcases hs : sortTiers tiers with _ | ⟨t, ts⟩
    · exfalso
      apply hne
      have hlen := (List.perm_insertionSort tle tiers).length_eq
      rw [show List.insertionSort tle tiers = sortTiers tiers from rfl, hs] at hlen
      exact List.eq_nil_of_length_eq_zero hlen.symm
    · rw [hs] at hsorted
      simp only [hs]
      exact ⟨congrArg some (tierWalk_sorted qty (t :: ts) hsorted t.multiplier), rfl⟩
  · refine ⟨?_, ?_, ?_, ?_⟩ <;>
      norm_num [_qty_multiplier, specTierMult, sortTiers, exampleTiers, tle,
        List.insertionSort, List.orderedInsert, tierWalk]

/-- C3 witness: the tier walk agrees with its specification at quantity 7
on the example table. -/
theorem c3_qty_tiers_witness :
    _qty_multiplier exampleTiers 7 = specTierMult exampleTiers 7 ∧
      (specTierMult exampleTiers 7).isSome = true :=
  c3_qty_tiers.1 exampleTiers 7 (by simp [exampleTiers]) (by norm_num)

/-- C5 (amended): the estimated weights use area × thickness × density
with no per-material weight-correction factor; total weight is unit
weight × quantity. -/
theorem c5_weight_formula (cfg : Config) (x : QuoteInputs) (q : Quote)
    (h : calculate_quote cfg x = .ok q) : WeightSpec cfg x q := by
  obtain ⟨tm, p, i, l, m, dt, de, hlt, htm, hp, hi, hl, hm, hdt, hde, rfl⟩ := cq_ok_inv h
  exact ⟨dt, de, hdt, hde, by simp only [mkQuote], by simp only [mkQuote]⟩

/-- C5 witness: the weight fields at the example input. -/
theorem c5_weight_formula_witness : WeightSpec cfgTuning xMain qMain :=
  c5_weight_formula cfgTuning xMain qMain cq_xMain

/-- C5 counterexample: the configuration defines a 1.06 weight multiplier
for 304 stainless, but the quote's unit weight is area × thickness ×
density with no 1.06 factor (9.10 lb, not 9.65 lb). -/
theorem c5_counterexample :
    calculate_quote cfgTuning xMain = .ok qMain ∧
    lookupD WEIGHT_MULTIPLIER_BY_MATERIAL "304" 1 = 106/100 ∧
    qMain.estimated_unit_weight_lb ≠ round2 (126 * (1/4) * (289/1000) * (106/100)) := by
  refine ⟨cq_xMain, by norm_num [WEIGHT_MULTIPLIER_BY_MATERIAL, lookupD, alookup], ?_⟩
  norm_num [qMain, round2, pyRound, Int.fract]

/-- C6 (amended): the shipping rates follow the dimensional-weight /
billable-weight / base + per-lb formulas with the 1.85× and 2.85×
expedited multipliers, but the integer-cent conversion is Python's
`round` — round half to even — not round-half-up. -/
theorem c6_shipping_formula (cfg : Config) (x : QuoteInputs) (q : Quote)
    (h : calculate_quote cfg x = .ok q) : ShippingSpec cfg x q := by
  obtain ⟨tm, p, i, l, m, dt, de, hlt, htm, hp, hi, hl, hm, hdt, hde, rfl⟩ := cq_ok_inv h
  refine ⟨dt, de, hdt, hde, ?_, ?_, ?_⟩ <;>
    simp only [mkQuote, upsRuleShippingCents, billableSpec]

/-- C6 witness: the shipping formulas at the 6-lb-billable input. -/
theorem c6_shipping_formula_witness : ShippingSpec cfgTuning xShip qShip :=
  c6_shipping_formula cfgTuning xShip qShip cq_xShip

/-- C6 counterexample: at billable weight 6 lb the 2-day rate is exactly
3274.5 cents; the code (Python `round`, half-to-even) yields 3274 while
the round-half-up conversion the claim prescribes yields 3275. -/
theorem c6_counterexample :
    calculate_quote cfgTuning xShip = .ok qShip ∧
    qShip.shipping.ups_2day_cents = 3274 ∧
    roundHalfUp ((12 + (95/100 : ℚ) * 6) * (185/100) * 100) = 3275 := by
  refine ⟨cq_xShip, by norm_num [qShip], ?_⟩
  norm_num [roundHalfUp]

/-- C2 counterexample: inputs with `bore_dia = paddle_dia` (6 = 6), with
`handle_length_from_bore = paddle_dia/2` (3 = 3), and with
`paddle_dia = 49 > 48` all pass validation and return quotes — the engine
performs none of the three geometric checks. -/
theorem c2_counterexample :
    isOkB (calculate_quote cfgTuning xEqBore) = true ∧
    isOkB (calculate_quote cfgTuning xShortHandle) = true ∧
    isOkB (calculate_quote cfgTuning xBigPaddle) = true := by
  refine ⟨?_, ?_, ?_⟩ <;>
    norm_num [isOkB, calculate_quote, alookup, lookupD, _qty_multiplier, sortTiers, tierWalk,
      tle, List.insertionSort, List.orderedInsert, cfgTuning, tuningEffectivePrice_eq,
      QTY_DISCOUNT_TIERS, INSPECTION_MINS_BY_TOL, tuningLeadTimeMultiplier_eq,
      DENSITY_LB_PER_IN3, xEqBore, xShortHandle, xBigPaddle, xMain]

/-- C2 (amended): `calculate_quote` validates exactly five conditions —
quantity ≥ 1 and the four configured-membership checks — raising a
`ValueError` naming the offending field before any cost is computed, in
source order; once the five pass, geometric properties of the input are
never validated and any later failure is a raw lookup fault, not a
`ValueError`. -/
theorem c2_validation (cfg : Config) (x : QuoteInputs) :
    (x.quantity < 1 → calculate_quote cfg x = .error (.valueError .qtyLow)) ∧
    (¬ x.quantity < 1 → alookup cfg.PRICE_PER_SQ_IN x.material = none →
      calculate_quote cfg x = .error (.valueError (.unknownMaterial x.material))) ∧
    (∀ tm, ¬ x.quantity < 1 → alookup cfg.PRICE_PER_SQ_IN x.material = some tm →
      alookup tm x.thickness = none →
      calculate_quote cfg x = .error (.valueError (.noPriceForThickness x.thickness x.material))) ∧
    (∀ tm p, ¬ x.quantity < 1 → alookup cfg.PRICE_PER_SQ_IN x.material = some tm →
      alookup tm x.thickness = some p →
      alookup cfg.INSPECTION_MINS_BY_TOL x.bore_tolerance = none →
      calculate_quote cfg x = .error (.valueError (.unsupportedBoreTol x.bore_tolerance))) ∧
    (∀ tm p i, ¬ x.quantity < 1 → alookup cfg.PRICE_PER_SQ_IN x.material = some tm →
      alookup tm x.thickness = some p →
      alookup cfg.INSPECTION_MINS_BY_TOL x.bore_tolerance = some i →
      alookup cfg.LEAD_TIME_MULTIPLIER x.ships_in_days = none →
      calculate_quote cfg x = .error (.valueError (.unsupportedShipsInDays x.ships_in_days))) ∧
    (∀ tm p i l e, ¬ x.quantity < 1 → alookup cfg.PRICE_PER_SQ_IN x.material = some tm →
      alookup tm x.thickness = some p →
      alookup cfg.INSPECTION_MINS_BY_TOL x.bore_tolerance = some i →
      alookup cfg.LEAD_TIME_MULTIPLIER x.ships_in_days = some l →
      calculate_quote cfg x = .error e →
      e = .indexError ∨ e = .attributeError ∨ e = .keyError) := by
  refine ⟨?_, ?_, ?_, ?_, ?_, ?_⟩
  · intro h1
    simp [calculate_quote, h1]
  · intro h1 h2
    simp [calculate_quote, h1, h2]
  · intro tm h1 h2 h3
    simp [calculate_quote, h1, h2, h3]
  · intro tm p h1 h2 h3 h4
    simp [calculate_quote, h1, h2, h3, h4]
  · intro tm p i h1 h2 h3 h4 h5
    simp [calculate_quote, h1, h2, h3, h4, h5]
  · intro tm p i l e h1 h2 h3 h4 h5 h6
    simp only [calculate_quote, if_neg h1, h2, h3, h4, h5] at h6
    split at h6
    · exact Or.inl (Except.error.inj h6).symm
    split at h6
    · exact Or.inr (Or.inl (Except.error.inj h6).symm)
    split at h6
    · exact Or.inr (Or.inr (Except.error.inj h6).symm)
    · exact absurd h6 (by simp)

/-- C2 witness: a zero-quantity input is rejected with the quantity
message under the tuning configuration. -/
theorem c2_validation_witness :
    calculate_quote cfgTuning xQty0 = .error (.valueError .qtyLow) :=
  (c2_validation cfgTuning xQty0).1 (by norm_num [xQty0, xMain])

/-- C4 (amended): after the five validation checks pass, the remaining
failures escape as raw faults — an empty quantity-discount tier list
raises `IndexError`, a missing density table raises `AttributeError`
(the engine's own `pricing_config` module defines none), and a material
absent from the density table raises `KeyError`; none of them is
normalized into a typed configuration error. -/
theorem c4_error_kinds (cfg : Config) (x : QuoteInputs) :
    (∀ tm p i l, ¬ x.quantity < 1 → alookup cfg.PRICE_PER_SQ_IN x.material = some tm →
      alookup tm x.thickness = some p →
      alookup cfg.INSPECTION_MINS_BY_TOL x.bore_tolerance = some i →
      alookup cfg.LEAD_TIME_MULTIPLIER x.ships_in_days = some l →
      cfg.QTY_DISCOUNT_TIERS = [] →
      calculate_quote cfg x = .error .indexError) ∧
    (∀ tm p i l qm, ¬ x.quantity < 1 → alookup cfg.PRICE_PER_SQ_IN x.material = some tm →
      alookup tm x.thickness = some p →
      alookup cfg.INSPECTION_MINS_BY_TOL x.bore_tolerance = some i →
      alookup cfg.LEAD_TIME_MULTIPLIER x.ships_in_days = some l →
      _qty_multiplier cfg.QTY_DISCOUNT_TIERS x.quantity = some qm →
      cfg.DENSITY_LB_PER_IN3 = none →
      calculate_quote cfg x = .error .attributeError) ∧
    (∀ tm p i l qm dt, ¬ x.quantity < 1 → alookup cfg.PRICE_PER_SQ_IN x.material = some tm →
      alookup tm x.thickness = some p →
      alookup cfg.INSPECTION_MINS_BY_TOL x.bore_tolerance = some i →
      alookup cfg.LEAD_TIME_MULTIPLIER x.ships_in_days = some l →
      _qty_multiplier cfg.QTY_DISCOUNT_TIERS x.quantity = some qm →
      cfg.DENSITY_LB_PER_IN3 = some dt →
      alookup dt x.material = none →
      calculate_quote cfg x = .error .keyError) := by
  refine ⟨?_, ?_, ?_⟩
  · intro tm p i l h1 h2 h3 h4 h5 h6
    have hqm : _qty_multiplier cfg.QTY_DISCOUNT_TIERS x.quantity = none := by
      simp [_qty_multiplier, h6, sortTiers]
    simp [calculate_quote, h1, h2, h3, h4, h5, hqm]
  · intro tm p i l qm h1 h2 h3 h4 h5 h6 h7
    simp [calculate_quote, h1, h2, h3, h4, h5, h6, h7]
  · intro tm p i l qm dt h1 h2 h3 h4 h5 h6 h7 h8
    simp [calculate_quote, h1, h2, h3, h4, h5, h6, h7, h8]

/-- C4 witness: a density table without `"304"` makes the otherwise valid
example input fail with `KeyError`. -/
theorem c4_error_kinds_witness :
    calculate_quote cfgTuningBadDensity xMain = .error .keyError :=
  (c4_error_kinds cfgTuningBadDensity xMain).2.2
    [(1/4, 641/2500), (3/8, 1907/5000), (1/2, 6307/10000)] (641/2500) 6 1 1
    [("316", 289/1000)]
    (by norm_num [xMain])
    (by norm_num [cfgTuningBadDensity, cfgTuning, tuningEffectivePrice_eq, alookup, xMain])
    (by norm_num [alookup, xMain])
    (by norm_num [cfgTuningBadDensity, cfgTuning, INSPECTION_MINS_BY_TOL, alookup, xMain])
    (by norm_num [cfgTuningBadDensity, cfgTuning, tuningLeadTimeMultiplier_eq, alookup, xMain])
    (by norm_num [cfgTuningBadDensity, cfgTuning, _qty_multiplier, sortTiers, tierWalk, tle,
      List.insertionSort, List.orderedInsert, QTY_DISCOUNT_TIERS, xMain])
    (by norm_num [cfgTuningBadDensity, cfgTuning])
    (by norm_num +decide [alookup, xMain])

/-- C4 counterexample: under the configuration module the engine actually
imports (`pricing_config`, which has no density table) the end-to-end
example raises a raw `AttributeError`; with an empty tier list under the
tuning configuration it raises a raw `IndexError`. Neither is a
`ValidationError` or a typed `ConfigurationError` — no such class exists
in the code. -/
theorem c4_counterexample :
    calculate_quote cfgPricing xMain = .error .attributeError ∧
    calculate_quote cfgTuningEmptyTiers xMain = .error .indexError := by
  constructor <;>
    norm_num [calculate_quote, alookup, lookupD, _qty_multiplier, sortTiers, tierWalk, tle,
      List.insertionSort, List.orderedInsert, cfgPricing, cfgTuningEmptyTiers, cfgTuning,
      pricingConfigPrice, tuningEffectivePrice_eq, QTY_DISCOUNT_TIERS, INSPECTION_MINS_BY_TOL,
      LEAD_TIME_MULTIPLIER_MASTER, tuningLeadTimeMultiplier_eq, DENSITY_LB_PER_IN3, xMain]

/-- C7 counterexample: at quantities 49 and 50 of the example part the
larger order costs less in total (10622.10 < 10640.99), because the
50-unit discount tier (×0.90) overtakes the extra unit. -/
theorem c7_counterexample :
    calculate_quote cfgTuning xMain49 = .ok qMain49 ∧
    calculate_quote cfgTuning xMain50 = .ok qMain50 ∧
    qMain50.total_price < qMain49.total_price :=
  ⟨cq_xMain49, cq_xMain50, by norm_num [qMain49, qMain50, qMain]⟩

/-- C7 (amended): for two otherwise-identical validated inputs with
nonnegative dimensions under the tuning configuration, the larger
quantity never gets a larger discount multiplier or a larger unit price
(the total price, however, can decrease — see the counterexample). -/
theorem c7_unit_price_anti (x : QuoteInputs) (n₁ n₂ : ℤ) (q₁ q₂ : Quote)
    (ht : 0 ≤ x.thickness) (hw : 0 ≤ x.handle_width) (hhl : 0 ≤ x.handle_length_from_bore)
    (hpd : 0 ≤ x.paddle_dia) (hbd : 0 ≤ x.bore_dia) (h12 : n₁ ≤ n₂)
    (h1 : calculate_quote cfgTuning { x with quantity := n₁ } = .ok q₁)
    (h2 : calculate_quote cfgTuning { x with quantity := n₂ } = .ok q₂) :
    q₂.qty_discount_multiplier ≤ q₁.qty_discount_multiplier ∧
      q₂.unit_price ≤ q₁.unit_price := by
  obtain ⟨tm1, p1, i1, l1, m1, dt1, de1, hlt1, htm1, hp1, hi1, hl1, hm1, hdt1, hde1, rfl⟩ :=
    cq_ok_inv h1
  obtain ⟨tm2, p2, i2, l2, m2, dt2, de2, hlt2, htm2, hp2, hi2, hl2, hm2, hdt2, hde2, rfl⟩ :=
    cq_ok_inv h2
  have etm : tm1 = tm2 := Option.some.inj (htm1.symm.trans htm2)
  subst etm
  have ep : p1 = p2 := Option.some.inj (hp1.symm.trans hp2)
  subst ep
  have ei : i1 = i2 := Option.some.inj (hi1.symm.trans hi2)
  subst ei
  have el : l1 = l2 := Option.some.inj (hl1.symm.trans hl2)
  subst el
  have em1 : m1 = stdMult n₁ := Option.some.inj ((qty_multiplier_std n₁).symm.trans hm1).symm
  have em2 : m2 = stdMult n₂ := Option.some.inj ((qty_multiplier_std n₂).symm.trans hm2).symm
  subst em1
  subst em2
  constructor
  · simp only [mkQuote]
    exact stdMult_anti h12
  · simp only [mkQuote]
    apply round2_mono
    apply mul_le_mul_of_nonneg_left (stdMult_anti h12)
    refine mul_nonneg ?_ (lead_nonneg hl1)
    refine add_nonneg (add_nonneg (add_nonneg (add_nonneg (add_nonneg ?_ ?_) ?_) ?_) ?_) ?_
    · exact mul_nonneg
        (mul_nonneg hpd (add_nonneg hhl (div_nonneg hpd (by norm_num)))) (price_nonneg htm1 hp1)
    · refine mul_nonneg ?_ (by norm_num [cfgTuning])
      exact add_nonneg (add_nonneg hw (mul_nonneg hhl (by norm_num)))
        (mul_nonneg (div_nonneg hpd (by norm_num)) (by norm_num))
    · exact mul_nonneg
        (mul_nonneg (mul_nonneg (by norm_num) hbd) (by norm_num [cfgTuning])) (by norm_num)
    · cases hch : x.chamfer
      · simp [hch]
      · simp only [hch, if_true]
        exact mul_nonneg
          (mul_nonneg (mul_nonneg (by norm_num) hbd) (by norm_num [cfgTuning])) (by norm_num)
    · norm_num [cfgTuning]
    · exact mul_nonneg (by norm_num [cfgTuning]) (insp_nonneg hi1)

/-- C7 witness: the discount multiplier and unit price do not increase
from quantity 49 to 50 at the example input. -/
theorem c7_unit_price_anti_witness :
    qMain50.qty_discount_multiplier ≤ qMain49.qty_discount_multiplier ∧
      qMain50.unit_price ≤ qMain49.unit_price :=
  c7_unit_price_anti xMain 49 50 qMain49 qMain50 (by norm_num [xMain]) (by norm_num [xMain])
    (by norm_num [xMain]) (by norm_num [xMain]) (by norm_num [xMain]) (by norm_num)
    cq_xMain49 cq_xMain50

/-- C8 counterexample: toggling the chamfer flag on the example input also
changes `subtotal_pre_multiplier` (168.76 vs 236.05) — the results do not
differ only in the chamfer-cost field and the chamfer-width echo. -/
theorem c8_counterexample :
    calculate_quote cfgTuning xMainNoChamfer = .ok qMainNoChamfer ∧
    calculate_quote cfgTuning xMain = .ok qMain ∧
    qMainNoChamfer.subtotal_pre_multiplier ≠ qMain.subtotal_pre_multiplier :=
  ⟨cq_xMainNoChamfer, cq_xMain, by norm_num [qMainNoChamfer, qMain]⟩

/-- C8 (amended): two inputs identical except for the chamfer flag yield
results that agree on every field other than `chamfer_bore_cost` and the
price aggregates computed from it (`subtotal_pre_multiplier`,
`unit_price_pre_qty_discount`, `unit_price`, `total_price`) — in
particular the five other cost components, geometry, weights, package and
shipping are identical — and the chamfer cost is exactly zero when the
chamfer flag is off. -/
theorem c8_chamfer_frame (cfg : Config) (x : QuoteInputs) :
    Except.map scrubChamfer (calculate_quote cfg { x with chamfer := false })
      = Except.map scrubChamfer (calculate_quote cfg { x with chamfer := true }) ∧
    (∀ q, calculate_quote cfg { x with chamfer := false } = .ok q →
      q.chamfer_bore_cost = 0) := by
  constructor
  · unfold calculate_quote
    by_cases h1 : x.quantity < 1
    · simp [h1]
    simp only [if_neg h1]
    rcases h2 : alookup cfg.PRICE_PER_SQ_IN x.material with _ | tm
    · simp only [h2]
    simp only [h2]
    rcases h3 : alookup tm x.thickness with _ | p
    · simp only [h3]
    simp only [h3]
    rcases h4 : alookup cfg.INSPECTION_MINS_BY_TOL x.bore_tolerance with _ | i
    · simp only [h4]
    simp only [h4]
    rcases h5 : alookup cfg.LEAD_TIME_MULTIPLIER x.ships_in_days with _ | l
    · simp only [h5]
    simp only [h5]
    rcases h6 : _qty_multiplier cfg.QTY_DISCOUNT_TIERS x.quantity with _ | qm
    · simp only [h6]
    simp only [h6]
    rcases h7 : cfg.DENSITY_LB_PER_IN3 with _ | dt
    · simp only [h7]
    simp only [h7]
    rcases h8 : alookup dt x.material with _ | de
    · simp only [h8]
    simp only [h8]
    rfl
  · intro q h
    obtain ⟨tm, p, i, l, m, dt, de, hlt, htm, hp, hi, hl, hm, hdt, hde, rfl⟩ := cq_ok_inv h
    simp only [mkQuote]
    norm_num [round2, pyRound, Int.fract]

/-- C8 witness: the chamfer-off example quote has zero chamfer cost. -/
theorem c8_chamfer_frame_witness : qMainNoChamfer.chamfer_bore_cost = 0 :=
  (c8_chamfer_frame cfgTuning xMain).2 qMainNoChamfer cq_xMainNoChamfer

/-- C9 (amended): if filtering a non-empty override price table by the
enabled flags leaves nothing, resolution falls back to the baseline
filtered by the same flags; an override whose material flags are all
false filters any table — override or fallback — to empty; but
`_apply_cfg_from_db_config` installs the resolved table on the
`tuning_knobs` module while the engine reads `pricing_config`, so the
empty table never reaches `calculate_quote`: an input passing the five
checks against the engine's own module fails with the raw
`AttributeError` of the missing density table, not a
`ConfigurationError`. -/
theorem c9_fallback :
    (∀ me th ov base, ov ≠ [] → apiFilterPrice me th ov = [] →
      applyPricePerSqIn me th ov base = apiFilterPrice me th base) ∧
    (∀ me th ppsi, (∀ p ∈ me, p.2 = false) → apiFilterPrice me th ppsi = []) ∧
    (∀ (x : QuoteInputs) tm p i l, ¬ x.quantity < 1 →
      alookup cfgPricing.PRICE_PER_SQ_IN x.material = some tm →
      alookup tm x.thickness = some p →
      alookup cfgPricing.INSPECTION_MINS_BY_TOL x.bore_tolerance = some i →
      alookup cfgPricing.LEAD_TIME_MULTIPLIER x.ships_in_days = some l →
      calculate_quote cfgPricing x = .error .attributeError) := by
  refine ⟨?_, ?_, ?_⟩
  · intro me th ov base hov hempty
    have h1 : ov.isEmpty = false := List.isEmpty_eq_false.mpr hov
    simp [applyPricePerSqIn, h1, hempty]
  · intro me th ppsi hall
    unfold apiFilterPrice
    rw [List.filterMap_eq_nil_iff]
    intro p hp
    have hfalse : lookupD me p.1 false = false := by
      unfold lookupD
      rcases hm : alookup me p.1 with _ | b
      · rfl
      · have hb := hall _ (alookup_mem hm)
        simpa using hb
    simp [hfalse]
  · intro x tm p i l h1 h2 h3 h4 h5
    simp [calculate_quote, h1, h2, h3, h4, h5,
      show cfgPricing.QTY_DISCOUNT_TIERS = QTY_DISCOUNT_TIERS from rfl, qty_multiplier_std,
      show cfgPricing.DENSITY_LB_PER_IN3 = none from rfl]

/-- C9 witness: an override that prices only the disabled material Monel
filters to empty, and resolution falls back to the baseline filtered by
the same enabled flags. -/
theorem c9_fallback_witness :
    applyPricePerSqIn MATERIAL_ENABLED THICKNESS_ENABLED_BY_MATERIAL
        [("Monel", [(1/8, 1)])] tuningRawPrice
      = apiFilterPrice MATERIAL_ENABLED THICKNESS_ENABLED_BY_MATERIAL tuningRawPrice :=
  c9_fallback.1 MATERIAL_ENABLED THICKNESS_ENABLED_BY_MATERIAL [("Monel", [(1/8, 1)])]
    tuningRawPrice (by simp)
    (by norm_num +decide [apiFilterPrice, MATERIAL_ENABLED, lookupD, alookup,
      List.filterMap_cons])

/-- C9 counterexample: with every material disabled the resolved price
table is empty (the fallback is filtered by the same flags and is empty
too), yet the module the engine imports — `pricing_config`, which the
override plumbing never touches — still holds its intact price table, so
the example input passes the material check there and the call raises
the raw `AttributeError` of the missing density table: not a
`ConfigurationError`, which does not exist in the code. -/
theorem c9_counterexample :
    applyPricePerSqIn meAllOff THICKNESS_ENABLED_BY_MATERIAL tuningRawPrice tuningRawPrice
      = [] ∧
    alookup cfgPricing.PRICE_PER_SQ_IN "304"
      = some [(125/1000, 220/1000), (25/100, 425/1000), (375/1000, 460/1000)] ∧
    calculate_quote cfgPricing xMain = .error .attributeError := by
  refine ⟨?_, ?_, ?_⟩
  · norm_num +decide [applyPricePerSqIn, apiFilterPrice, meAllOff, tuningRawPrice,
      THICKNESS_ENABLED_BY_MATERIAL, lookupD, alookup, List.filterMap_cons, List.filter_cons,
      List.isEmpty_cons, List.isEmpty_nil]
  · norm_num [cfgPricing, pricingConfigPrice, alookup]
  · norm_num [calculate_quote, alookup, lookupD, _qty_multiplier, sortTiers, tierWalk, tle,
      List.insertionSort, List.orderedInsert, cfgPricing, pricingConfigPrice,
      QTY_DISCOUNT_TIERS, INSPECTION_MINS_BY_TOL, LEAD_TIME_MULTIPLIER_MASTER, xMain]

end Orifice

